import Mathlib

/-!
Shallow embedding of the vietlott-data crawler core
(`src/crawler/vietlott.py`): the two HTML response parsers
(`_parse_power_response`, `_parse_max3d_response`), the backward-link
pagination loop (`VietlottCrawler.crawl`) and the store merge
(`update_data`), together with theorems checking the specification's
claims against them.

Modelling conventions:
- HTML fragments are modelled by the data BeautifulSoup extracts from
  them (header text, span texts of the result containers, the previous
  navigation anchor's href), since the selector engine itself is
  external library code.
- Digit classification (`str.isdigit`, regex `\d`) is modelled as ASCII
  digits; string order is code-point lexicographic, as in Python.
- The network transport is an oracle `fetch : String → Option ParsedDraw`
  (draw-id cursor, `""` meaning latest); `none` covers both transport
  failure and parse failure, exactly what `fetch_draw` returns then.
- `datetime.now().isoformat()` is an explicit `now : String` parameter.
- Python exceptions inside the parsers are modelled with `Except`:
  `parsePowerE`/`parseMax3dE` are the bodies of the `try:` blocks with
  every failure point an error, and the public parsers are the
  `except`-handlers mapping every error to `None`.
-/

namespace Vietlott

/-- Lexicographic (code-point) order on character lists, Python's `<=` on
`str` restricted to the comparisons the code performs. -/
def charsLe : List Char → List Char → Bool
  | [], _ => true
  | _ :: _, [] => false
  | a :: as, b :: bs =>
    if a < b then true
    else if b < a then false
    else charsLe as bs

/-- Python string `<=` (used by `list.sort(key=lambda x: x["date"])`). -/
def strLe (a b : String) : Bool :=
  charsLe a.data b.data

/-- ASCII digit test: model of `str.isdigit` / regex `\d` on the
crawler's inputs. -/
def isDigitStr (s : String) : Bool :=
  s.length != 0 && s.data.all Char.isDigit

/-- Python `str.strip()`: drop leading and trailing whitespace. -/
def strip (s : String) : String :=
  String.mk
    (((s.data.dropWhile Char.isWhitespace).reverse.dropWhile
        Char.isWhitespace).reverse)

/-- Numeric value of an ASCII digit character. -/
def digitVal (c : Char) : Nat := c.toNat - 48

/-- `int(text)` on a string of ASCII digits. -/
def natOfDigits (cs : List Char) : Nat :=
  cs.foldl (fun a c => a * 10 + digitVal c) 0

/-- `int(text)` on a `String` of ASCII digits. -/
def natOfString (s : String) : Nat := natOfDigits s.data

/-- Result payload of a draw record: list of integers for power-style
products, list of digit strings for Max 3D-style products (the Python
dict stores either). -/
inductive ResultVal where
  | nums : List Nat → ResultVal
  | triplets : List String → ResultVal
deriving DecidableEq, Repr

/-- A parsed draw as returned by `_parse_response`: the record fields
plus the backward cursor `prev_draw_id`. -/
structure ParsedDraw where
  date : String
  id : String
  result : ResultVal
  processTime : String
  prevDrawId : Option String
deriving DecidableEq, Repr

/-- A stored draw record (after `crawl` pops `prev_draw_id`). -/
structure DrawRec where
  date : String
  id : String
  result : ResultVal
  processTime : String
deriving DecidableEq, Repr

/-- Drop the cursor field: `result.pop("prev_draw_id", None)` before
`all_data.append(result)`. -/
def ParsedDraw.toRec (p : ParsedDraw) : DrawRec :=
  { date := p.date, id := p.id, result := p.result, processTime := p.processTime }

/-- The configuration fields of `LotteryConfig` (src/config.py) that the
embedded crawler code reads. -/
structure LotteryConfig where
  name : String
  minVal : Nat
  maxVal : Nat
  numbersToPick : Nat
  productType : String
deriving DecidableEq, Repr

/-- `POWER_645_CONFIG` (the fields the parser uses). -/
def power645Config : LotteryConfig :=
  { name := "power_645", minVal := 1, maxVal := 45, numbersToPick := 6,
    productType := "power" }

/-- `MAX3D_CONFIG` (the fields the parser uses). -/
def max3dConfig : LotteryConfig :=
  { name := "max_3d", minVal := 0, maxVal := 999, numbersToPick := 20,
    productType := "max3d" }

/-! ### Header extraction: `re.search` models -/

/-- `re.search(r"#(\d+)", h5_text)`: leftmost `#` followed by at least
one digit; captures the maximal digit run. -/
def findHashId : List Char → Option String
  | [] => none
  | c :: rest =>
    if c = '#' then
      match rest.takeWhile Char.isDigit with
      | [] => findHashId rest
      | run => some (String.mk run)
    else findHashId rest

/-- Does this character list start with `dd/dd/dddd` (the shape matched
by `re.search(r"(\d{2}/\d{2}/\d{4})", ...)`)? -/
def datePatAt : List Char → Bool
  | d1 :: d2 :: s1 :: m1 :: m2 :: s2 :: y1 :: y2 :: y3 :: y4 :: _ =>
    d1.isDigit && d2.isDigit && s1 = '/' && m1.isDigit && m2.isDigit &&
      s2 = '/' && y1.isDigit && y2.isDigit && y3.isDigit && y4.isDigit
  | _ => false

/-- `re.search(r"(\d{2}/\d{2}/\d{4})", h5_text)`: leftmost match of the
fixed-width date pattern. -/
def findDate : List Char → Option String
  | [] => none
  | c :: rest =>
    if datePatAt (c :: rest) then some (String.mk ((c :: rest).take 10))
    else findDate rest

/-- Is `y` a Gregorian leap year (as `datetime` validates)? -/
def isLeap (y : Nat) : Bool :=
  y % 4 == 0 && (y % 100 != 0 || y % 400 == 0)

/-- Days in month `m` of year `y`. -/
def daysInMonth (y m : Nat) : Nat :=
  if m = 2 then (if isLeap y then 29 else 28)
  else if m = 4 ∨ m = 6 ∨ m = 9 ∨ m = 11 then 30
  else 31

/-- Zero-pad a number below 100 to two digits (strftime `%m`, `%d`). -/
def pad2 (n : Nat) : String :=
  if n < 10 then "0" ++ toString n else toString n

/-- Zero-pad a year to four digits (strftime `%Y` on the target
platform). -/
def pad4 (n : Nat) : String :=
  if n < 10 then "000" ++ toString n
  else if n < 100 then "00" ++ toString n
  else if n < 1000 then "0" ++ toString n
  else toString n

/-- `datetime.strptime(date_str, "%d/%m/%Y").strftime("%Y-%m-%d")`:
parse and validate a `dd/mm/yyyy` string, reformat to ISO; `none` when
`strptime` raises `ValueError` (bad shape, month/day out of range, year
zero). -/
def normalizeDate (s : String) : Option String :=
  match s.data with
  | [d1, d2, s1, m1, m2, s2, y1, y2, y3, y4] =>
    if s1 = '/' && s2 = '/' &&
        ([d1, d2, m1, m2, y1, y2, y3, y4].all Char.isDigit) then
      let d := natOfDigits [d1, d2]
      let m := natOfDigits [m1, m2]
      let y := natOfDigits [y1, y2, y3, y4]
      if 1 ≤ y && 1 ≤ m && m ≤ 12 && 1 ≤ d && d ≤ daysInMonth y m then
        some (pad4 y ++ "-" ++ pad2 m ++ "-" ++ pad2 d)
      else none
    else none
  | _ => none

/-! ### Previous-draw anchor: `re.search(r"ClientDrawResult\(['\"](\d+)['\"]\)", href)` -/

/-- Is `c` one of the quote characters matched by `['\"]`? -/
def isQuote (c : Char) : Bool :=
  c.toNat = 39 || c.toNat = 34

/-- Try to match `ClientDrawResult(` quote digits quote `)` starting at
this position, returning the captured digit run. -/
def clientDrawAt (cs : List Char) : Option String :=
  let pre := "ClientDrawResult".data
  if cs.take 16 = pre then
    match cs.drop 16 with
    | o :: q :: rest =>
      if o = '(' && isQuote q then
        match rest.takeWhile Char.isDigit with
        | [] => none
        | run =>
          match rest.drop run.length with
          | q2 :: cl :: _ => if isQuote q2 && cl = ')' then some (String.mk run) else none
          | _ => none
      else none
    | _ => none
  else none

/-- Leftmost match of the `ClientDrawResult('<digits>')` call pattern in
an href string. -/
def findClientDrawId : List Char → Option String
  | [] => none
  | c :: rest =>
    match clientDrawAt (c :: rest) with
    | some ds => some ds
    | none => findClientDrawId rest

/-- Extraction of `prev_draw_id` from the optional navigation anchor's
href (`soup.select_one("a.btn_chuyendulieu_left")`; a missing `href`
attribute defaults to `""`, which matches nothing). -/
def findPrevId : Option String → Option String
  | none => none
  | some href => findClientDrawId href.data

/-! ### The HTML fragment, as seen through the parsers' selectors -/

/-- What the parsers select out of an HTML fragment:
- `h5text`: text of the first `h5`, when present;
- `resultDivV2`: raw span texts of the first `.day_so_ket_qua_v2`
  container, when that container is present (a childless container is
  falsy in BeautifulSoup and modelled as absent);
- `resultDiv`: likewise for the `.day_so_ket_qua` fallback container;
- `max3dDivs`: for each `.day_so_ket_qua_v2` container in order, the raw
  texts of its `span.bong_tron` elements;
- `prevHref`: the `href` of the `a.btn_chuyendulieu_left` anchor, when
  the anchor is present (missing attribute defaults to `""`). -/
structure HtmlFrag where
  h5text : Option String
  resultDivV2 : Option (List String)
  resultDiv : Option (List String)
  max3dDivs : List (List String)
  prevHref : Option String
deriving DecidableEq, Repr

/-- Internal failure points of the two parsers: each corresponds to an
early `return None` or an exception site inside the `try:` block. -/
inductive ParseErr where
  | noH5
  | noId
  | noDate
  | badDate
  | noResultDiv
  | notEnoughNumbers
  | notEnoughTriplets
deriving DecidableEq, Repr

/-- `result_div = soup.select_one(".day_so_ket_qua_v2")` with fallback
to `.day_so_ket_qua` when absent. -/
def selectResultDiv (frag : HtmlFrag) : Option (List String) :=
  match frag.resultDivV2 with
  | some spans => some spans
  | none => frag.resultDiv

/-- The whole-number tokens of the power result container: each span
text stripped, kept when `isdigit`, converted with `int`. -/
def powerNumbers (spanTexts : List String) : List Nat :=
  spanTexts.filterMap fun t =>
    let s := strip t
    if isDigitStr s then some (natOfString s) else none

/-- Body of the `try:` block of `_parse_power_response`, every failure
point made explicit. -/
def parsePowerE (cfg : LotteryConfig) (frag : HtmlFrag) (now : String) :
    Except ParseErr ParsedDraw :=
  match frag.h5text with
  | none => .error .noH5
  | some h5text =>
    match findHashId h5text.data with
    | none => .error .noId
    | some drawId =>
      match findDate h5text.data with
      | none => .error .noDate
      | some dateStr =>
        match normalizeDate dateStr with
        | none => .error .badDate
        | some dateIso =>
          match selectResultDiv frag with
          | none => .error .noResultDiv
          | some spanTexts =>
            let numbers := powerNumbers spanTexts
            if numbers.length < cfg.numbersToPick then .error .notEnoughNumbers
            else
              .ok { date := dateIso, id := drawId,
                    result := .nums (numbers.take cfg.numbersToPick),
                    processTime := now,
                    prevDrawId := findPrevId frag.prevHref }

/-- `_parse_power_response`: the `try:` body with the `except` handler
turning every failure into `None`. -/
def parsePower (cfg : LotteryConfig) (frag : HtmlFrag) (now : String) :
    Option ParsedDraw :=
  match parsePowerE cfg frag now with
  | .ok r => some r
  | .error _ => none

/-- The Max 3D group extraction: for each result container, take its
`span.bong_tron` texts; when the span list is nonempty, every stripped
text is `isdigit`, and there are exactly three spans, contribute the
concatenation of the three stripped texts. -/
def max3dNumbers (divs : List (List String)) : List String :=
  divs.foldl
    (fun numbers spans =>
      if spans.isEmpty then numbers
      else
        let digits := spans.map strip
        if digits.all isDigitStr && digits.length == 3 then
          numbers ++ [String.join digits]
        else numbers)
    []

/-- Body of the `try:` block of `_parse_max3d_response`, every failure
point made explicit. (The config is unused by this variant: the
minimum-group threshold is the literal `2`.) -/
def parseMax3dE (frag : HtmlFrag) (now : String) :
    Except ParseErr ParsedDraw :=
  match frag.h5text with
  | none => .error .noH5
  | some h5text =>
    match findHashId h5text.data with
    | none => .error .noId
    | some drawId =>
      match findDate h5text.data with
      | none => .error .noDate
      | some dateStr =>
        match normalizeDate dateStr with
        | none => .error .badDate
        | some dateIso =>
          let numbers := max3dNumbers frag.max3dDivs
          if numbers.length < 2 then .error .notEnoughTriplets
          else
            .ok { date := dateIso, id := drawId,
                  result := .triplets numbers,
                  processTime := now,
                  prevDrawId := findPrevId frag.prevHref }

/-- `_parse_max3d_response`: the `try:` body with the `except` handler
turning every failure into `None`. -/
def parseMax3d (frag : HtmlFrag) (now : String) : Option ParsedDraw :=
  match parseMax3dE frag now with
  | .ok r => some r
  | .error _ => none

/-- `_parse_response`: dispatch on `config.product_type`. -/
def parseResponse (cfg : LotteryConfig) (frag : HtmlFrag) (now : String) :
    Option ParsedDraw :=
  if cfg.productType = "max3d" then parseMax3d frag now
  else parsePower cfg frag now

/-- The dispatched `try:` body, for stating the error-handling claim. -/
def parseResponseE (cfg : LotteryConfig) (frag : HtmlFrag) (now : String) :
    Except ParseErr ParsedDraw :=
  if cfg.productType = "max3d" then parseMax3dE frag now
  else parsePowerE cfg frag now

/-! ### The pagination walker: `VietlottCrawler.crawl` -/

/-- One run of the `for i in range(max_records)` loop of `crawl`, from a
given cursor with a given amount of loop budget left. Returns the
records accumulated from this point on (newest first) together with the
number of `fetch_draw` calls performed. The transport-and-parse pipeline
is the oracle `fetch`; `existingIds` is the caller-supplied known-id
set, tested with membership as in `current_id in existing_ids`. -/
def crawlLoop (fetch : String → Option ParsedDraw) (existingIds : List String) :
    Nat → String → List DrawRec × Nat
  | 0, _ => ([], 0)
  | n + 1, drawId =>
    match fetch drawId with
    | none => ([], 1)
    | some pd =>
      if existingIds.contains pd.id then ([], 1)
      else
        match pd.prevDrawId with
        | some prev =>
          let (rest, fetches) := crawlLoop fetch existingIds n prev
          (pd.toRec :: rest, fetches + 1)
        | none => ([pd.toRec], 1)

/-- `VietlottCrawler.crawl(max_records, existing_ids)`: start at the
latest draw (empty cursor) and follow `prev_draw_id` links backward. -/
def crawl (fetch : String → Option ParsedDraw) (maxRecords : Nat)
    (existingIds : List String) : List DrawRec :=
  (crawlLoop fetch existingIds maxRecords "").1

/-- Number of fetches a crawl session performs. -/
def crawlFetches (fetch : String → Option ParsedDraw) (maxRecords : Nat)
    (existingIds : List String) : Nat :=
  (crawlLoop fetch existingIds maxRecords "").2

/-! ### The store merge: `update_data` -/

/-- The ids of a list of stored records (`set(existing_df["id"])` is
modelled as this list with `contains` membership). -/
def idsOf (rs : List DrawRec) : List String :=
  rs.map (·.id)

/-- Comparison of two records by their date key, Python's
`key=lambda x: x["date"]`. -/
def dateLe (a b : DrawRec) : Prop := strLe a.date b.date = true

instance : DecidableRel dateLe := fun a b =>
  inferInstanceAs (Decidable (strLe a.date b.date = true))

/-- `all_data.sort(key=lambda x: x["date"])`: a stable sort ascending by
the date string (any stable sort computes the same list as CPython's
stable sort for the same key order). -/
def sortByDate (l : List DrawRec) : List DrawRec :=
  List.insertionSort dateLe l

/-- `update_data(product, pages)` from the point where the product's
store and transport are fixed: `existingFile` is the store file contents
(`none` when the file does not exist), `fetch` the transport-and-parse
oracle, `pages` the page argument. Returns the reported count of new
records together with the write effect: `none` when the function
returns without writing, `some rows` when it rewrites the store
wholesale with `rows`. -/
def update_data (existingFile : Option (List DrawRec))
    (fetch : String → Option ParsedDraw) (pages : Nat) :
    Nat × Option (List DrawRec) :=
  let existingData := existingFile.getD []
  let existingIds := idsOf existingData
  let newData := crawl fetch (pages * 10) existingIds
  if newData.isEmpty then (0, none)
  else
    let newRecords := newData.filter fun r => !(existingIds.contains r.id)
    if newRecords.isEmpty then (0, none)
    else
      let allData := sortByDate (existingData ++ newRecords)
      (newRecords.length, some allData)

/-- Store file contents after `update_data`: unchanged when no write
occurred, the written rows otherwise. -/
def storeAfter (existingFile : Option (List DrawRec))
    (fetch : String → Option ParsedDraw) (pages : Nat) :
    Option (List DrawRec) :=
  match (update_data existingFile fetch pages).2 with
  | none => existingFile
  | some rows => some rows

/-! ### Spec-side orderings on the persisted store -/

/-- Ascending by date from line to line (non-strict). -/
def ascByDate (rows : List DrawRec) : Prop :=
  List.Chain' dateLe rows

/-- The spec's "strictly ascending by date": no two consecutive lines
share a date and none is out of order. -/
def strictAscByDate (rows : List DrawRec) : Prop :=
  List.Chain' (fun a b => dateLe a b ∧ a.date ≠ b.date) rows

instance (rows : List DrawRec) : Decidable (ascByDate rows) :=
  inferInstanceAs (Decidable (List.Chain' dateLe rows))

instance (rows : List DrawRec) : Decidable (strictAscByDate rows) :=
  inferInstanceAs
    (Decidable (List.Chain' (fun a b => dateLe a b ∧ a.date ≠ b.date) rows))

instance : DecidableEq (Except ParseErr ParsedDraw) := fun a b =>
  match a, b with
  | .ok x, .ok y =>
    if h : x = y then isTrue (by rw [h])
    else isFalse fun hh => h (Except.ok.inj hh)
  | .error x, .error y =>
    if h : x = y then isTrue (by rw [h])
    else isFalse fun hh => h (Except.error.inj hh)
  | .ok _, .error _ => isFalse fun hh => Except.noConfusion hh
  | .error _, .ok _ => isFalse fun hh => Except.noConfusion hh

/-- A "complete triplet" in the sense of the spec's digit-triplet
sentence: a group of exactly three sub-elements whose stripped texts are
single digits. (Spec-side notion, for comparison with `max3dNumbers`.) -/
def specCompleteTriplet (spans : List String) : Bool :=
  spans.length == 3 &&
    (spans.map strip).all fun s => s.length == 1 && isDigitStr s

/-! ### Concrete fixtures for the scenarios, witnesses and
counterexamples -/

/-- A parsed draw with a fixed plausible payload. -/
def mkDraw (date id : String) (prev : Option String) : ParsedDraw :=
  { date := date, id := id, result := .nums [1, 2, 3, 4, 5, 6],
    processTime := "T", prevDrawId := prev }

/-- Stored record for scenario fixtures. -/
def mkRec (date id : String) : DrawRec :=
  (mkDraw date id none).toRec

/-- Scenario B store: ids 98, 99, 100 on consecutive dates. -/
def storeB : List DrawRec :=
  [mkRec "2026-01-08" "98", mkRec "2026-01-09" "99", mkRec "2026-01-10" "100"]

/-- Scenario B transport: latest draw is 101 linking back to 100; the
draw with cursor 100 is also available. -/
def fetchB : String → Option ParsedDraw := fun cursor =>
  if cursor = "" then some (mkDraw "2026-01-11" "101" (some "100"))
  else if cursor = "100" then some (mkDraw "2026-01-10" "100" (some "99"))
  else none

/-- Scenario C transport: an unbroken backward chain of 5 draws,
ids 5 down to 1, draw 1 having no previous link. -/
def fetchC : String → Option ParsedDraw := fun cursor =>
  if cursor = "" then some (mkDraw "2026-01-05" "5" (some "4"))
  else if cursor = "4" then some (mkDraw "2026-01-04" "4" (some "3"))
  else if cursor = "3" then some (mkDraw "2026-01-03" "3" (some "2"))
  else if cursor = "2" then some (mkDraw "2026-01-02" "2" (some "1"))
  else if cursor = "1" then some (mkDraw "2026-01-01" "1" none)
  else none

/-- Same-date store for the ordering counterexample. -/
def storeEq : List DrawRec :=
  [mkRec "2026-01-01" "1"]

/-- Transport whose latest draw falls on the same date as the stored
record (a second draw of the same day, as Keno-style products have). -/
def fetchEq : String → Option ParsedDraw := fun cursor =>
  if cursor = "" then some (mkDraw "2026-01-01" "2" none)
  else none

/-- Transport whose backward link revisits an id: the latest draw has id
7 and links to cursor 6, and the draw at cursor 6 again has id 7. -/
def fetchDup : String → Option ParsedDraw := fun cursor =>
  if cursor = "" then some (mkDraw "2026-01-06" "7" (some "6"))
  else if cursor = "6" then some (mkDraw "2026-01-05" "7" none)
  else none

/-- A valid power fragment: header with id 01458 and date 14/01/2026,
seven digit spans in the result container, a previous-draw anchor. -/
def fragPower : HtmlFrag :=
  { h5text := some "Kỳ quay thưởng #01458 ngày 14/01/2026",
    resultDivV2 := some ["05", "12", "23", "34", "45", "55", "10"],
    resultDiv := none,
    max3dDivs := [],
    prevHref := some "javascript:ClientDrawResult('01457')" }

/-- A power fragment with too few numbers (only five digit spans). -/
def fragPowerShort : HtmlFrag :=
  { h5text := some "Kỳ quay thưởng #01458 ngày 14/01/2026",
    resultDivV2 := some ["05", "12", "23", "34", "45"],
    resultDiv := none,
    max3dDivs := [],
    prevHref := none }

/-- A Max 3D fragment whose two groups each have exactly three spans
that are all `isdigit` but not single digits. -/
def fragTripletWide : HtmlFrag :=
  { h5text := some "Kỳ quay thưởng #00123 ngày 05/01/2026",
    resultDivV2 := none,
    resultDiv := none,
    max3dDivs := [["12", "3", "4"], ["56", "7", "8"]],
    prevHref := none }

/-- A well-formed Max 3D fragment: two complete single-digit triplets. -/
def fragTriplet : HtmlFrag :=
  { h5text := some "Kỳ quay thưởng #00123 ngày 05/01/2026",
    resultDivV2 := none,
    resultDiv := none,
    max3dDivs := [["1", "2", "3"], ["0", "0", "7"]],
    prevHref := none }

/-- The empty fragment: nothing to select. -/
def fragEmpty : HtmlFrag :=
  { h5text := none, resultDivV2 := none, resultDiv := none,
    max3dDivs := [], prevHref := none }

/-! ### Lemmas about the string order and the sort -/

theorem charsLe_total : ∀ as bs, charsLe as bs = true ∨ charsLe bs as = true
  | [], _ => .inl rfl
  | _ :: _, [] => .inr rfl
  | a :: as, b :: bs => by
    by_cases h1 : a < b
    · left; simp [charsLe, h1]
    · by_cases h2 : b < a
      · right; simp [charsLe, h2]
      · have ih := charsLe_total as bs
        simpa [charsLe, h1, h2] using ih

theorem charsLe_trans : ∀ as bs cs, charsLe as bs = true →
    charsLe bs cs = true → charsLe as cs = true
  | [], _, _, _, _ => rfl
  | _ :: _, [], _, h1, _ => by simp [charsLe] at h1
  | _ :: _, _ :: _, [], _, h2 => by simp [charsLe] at h2
  | a :: as, b :: bs, c :: cs, h1, h2 => by
    by_cases hab : a < b
    · by_cases hbc : b < c
      · simp [charsLe, lt_trans hab hbc]
      · by_cases hcb : c < b
        · simp [charsLe, hbc, hcb] at h2
        · have hbce : b = c := le_antisymm (not_lt.mp hcb) (not_lt.mp hbc)
          subst hbce
          simp [charsLe, hab]
    · by_cases hba : b < a
      · simp [charsLe, hab, hba] at h1
      · have habe : a = b := le_antisymm (not_lt.mp hba) (not_lt.mp hab)
        subst habe
        simp only [charsLe, lt_irrefl, if_false] at h1
        by_cases hac : a < c
        · simp [charsLe, hac]
        · by_cases hca : c < a
          · simp [charsLe, hac, hca] at h2
          · simp only [charsLe, lt_irrefl, if_false, hac, hca] at h2 ⊢
            exact charsLe_trans as bs cs h1 h2

instance : IsTotal DrawRec dateLe :=
  ⟨fun a b => charsLe_total a.date.data b.date.data⟩

instance : IsTrans DrawRec dateLe :=
  ⟨fun a b c h1 h2 => charsLe_trans a.date.data b.date.data c.date.data h1 h2⟩

theorem sortByDate_perm (l : List DrawRec) : List.Perm (sortByDate l) l :=
  List.perm_insertionSort dateLe l

theorem sortByDate_length (l : List DrawRec) :
    (sortByDate l).length = l.length :=
  (sortByDate_perm l).length_eq

theorem mem_sortByDate {a : DrawRec} {l : List DrawRec} :
    a ∈ sortByDate l ↔ a ∈ l :=
  (sortByDate_perm l).mem_iff

theorem ascByDate_sortByDate (l : List DrawRec) : ascByDate (sortByDate l) :=
  (List.sorted_insertionSort dateLe l).chain'

/-! ### Lemmas about the pagination walker -/

theorem crawlLoop_le (fetch : String → Option ParsedDraw)
    (ids : List String) :
    ∀ (n : Nat) (d : String),
      (crawlLoop fetch ids n d).2 ≤ n ∧
      (crawlLoop fetch ids n d).1.length ≤ (crawlLoop fetch ids n d).2
  | 0, _ => by simp [crawlLoop]
  | n + 1, d => by
    cases hf : fetch d with
    | none => simp [crawlLoop, hf]
    | some pd =>
      by_cases hc : pd.id ∈ ids
      · simp [crawlLoop, hf, hc]
      · cases hp : pd.prevDrawId with
        | none => simp [crawlLoop, hf, hc, hp]
        | some prev =>
          have ih := crawlLoop_le fetch ids n prev
          rcases hcl : crawlLoop fetch ids n prev with ⟨rest, c⟩
          rw [hcl] at ih
          simp only [crawlLoop, hf, hc, hp, hcl]
          simp only [List.elem_eq_mem, hc, decide_False, Bool.false_eq_true,
            if_false, List.length_cons]
          exact ⟨Nat.succ_le_succ ih.1, Nat.succ_le_succ ih.2⟩

/-- If the walker's fetch at the current cursor yields a record whose id
is already known, the loop stops there: no record is produced from this
point and exactly this one fetch is performed. -/
theorem crawlLoop_stop_known (fetch : String → Option ParsedDraw)
    (ids : List String) (n : Nat) (d : String) (pd : ParsedDraw)
    (hf : fetch d = some pd) (hc : ids.contains pd.id = true) :
    crawlLoop fetch ids (n + 1) d = ([], 1) := by
  have hc' : pd.id ∈ ids := by simpa using hc
  simp [crawlLoop, hf, hc']

/-- If the walker's fetch at the current cursor yields a record whose id
is not yet known, that record is the next one accumulated. -/
theorem crawlLoop_head_new (fetch : String → Option ParsedDraw)
    (ids : List String) (n : Nat) (d : String) (pd : ParsedDraw)
    (hf : fetch d = some pd) (hc : ids.contains pd.id = false) :
    ∃ rest k, crawlLoop fetch ids (n + 1) d = (pd.toRec :: rest, k) := by
  have hc' : pd.id ∉ ids := by
    intro hmem
    rw [show (ids.contains pd.id) = true by simpa using hmem] at hc
    exact absurd hc (by simp)
  cases hp : pd.prevDrawId with
  | none => exact ⟨[], 1, by simp [crawlLoop, hf, hc', hp]⟩
  | some prev =>
    rcases hcl : crawlLoop fetch ids n prev with ⟨rest, c⟩
    exact ⟨rest, c + 1, by simp [crawlLoop, hf, hc', hp, hcl]⟩

/-! ### Lemmas about the store merge -/

/-- The newly-merged-record filter of `update_data`, named for reuse in
statements. -/
def newRecordsOf (existingFile : Option (List DrawRec))
    (fetch : String → Option ParsedDraw) (pages : Nat) : List DrawRec :=
  (crawl fetch (pages * 10) (idsOf (existingFile.getD []))).filter
    fun r => !((idsOf (existingFile.getD [])).contains r.id)

/-- `update_data` written out branch by branch. -/
theorem update_data_eq (ef : Option (List DrawRec))
    (fetch : String → Option ParsedDraw) (pages : Nat) :
    update_data ef fetch pages =
      (if (crawl fetch (pages * 10) (idsOf (ef.getD []))).isEmpty then (0, none)
       else if (newRecordsOf ef fetch pages).isEmpty then (0, none)
       else ((newRecordsOf ef fetch pages).length,
             some (sortByDate (ef.getD [] ++ newRecordsOf ef fetch pages)))) :=
  rfl

/-- A write by `update_data` is the sorted merge of the existing rows
with the filtered new records, and the reported count is the number of
filtered new records. -/
theorem update_data_write (ef : Option (List DrawRec))
    (fetch : String → Option ParsedDraw) (pages : Nat) (rows : List DrawRec)
    (h : (update_data ef fetch pages).2 = some rows) :
    rows = sortByDate (ef.getD [] ++ newRecordsOf ef fetch pages) ∧
    (update_data ef fetch pages).1 = (newRecordsOf ef fetch pages).length := by
  rw [update_data_eq] at h ⊢
  by_cases h1 : (crawl fetch (pages * 10) (idsOf (ef.getD []))).isEmpty
  · simp [h1] at h
  · by_cases h2 : (newRecordsOf ef fetch pages).isEmpty
    · simp [h1, h2] at h
    · simp only [h1, h2, Bool.false_eq_true, if_false] at h ⊢
      exact ⟨(Option.some_inj.mp h).symm, trivial⟩

/-- Every id present in the existing rows is still present after the
sorted merge. -/
theorem idsOf_sort_append_left {ex nr : List DrawRec} {i : String}
    (hi : i ∈ idsOf ex) : i ∈ idsOf (sortByDate (ex ++ nr)) := by
  rcases List.mem_map.mp hi with ⟨r, hr, hri⟩
  exact List.mem_map.mpr ⟨r, mem_sortByDate.mpr (List.mem_append_left _ hr), hri⟩

/-- Every id of a filtered new record is present after the sorted
merge. -/
theorem idsOf_sort_append_right {ex nr : List DrawRec} {i : String}
    (hi : i ∈ idsOf nr) : i ∈ idsOf (sortByDate (ex ++ nr)) := by
  rcases List.mem_map.mp hi with ⟨r, hr, hri⟩
  exact List.mem_map.mpr ⟨r, mem_sortByDate.mpr (List.mem_append_right _ hr), hri⟩

/-! ### Claim theorems -/

/-- C1: whenever the walker's fetch yields a record whose id is already
in the caller-supplied known-id set, the walk stops at that point and
the record is excluded from its output; in particular, with the store
holding ids 98, 99, 100 and the remote's latest draw 101 linking back to
100, `update_data` adds exactly the record with id 101 and returns 1. -/
theorem claim1_walker_stops_on_known_id :
    (∀ (fetch : String → Option ParsedDraw) (existingIds : List String)
        (n : Nat) (cursor : String) (pd : ParsedDraw),
        fetch cursor = some pd → existingIds.contains pd.id = true →
        crawlLoop fetch existingIds (n + 1) cursor = ([], 1)) ∧
    update_data (some storeB) fetchB 1 =
      (1, some (storeB ++ [mkRec "2026-01-11" "101"])) :=
  ⟨crawlLoop_stop_known, by decide⟩

/-- Witness for C1: in scenario B the fetch at cursor 100 returns the
known draw 100, and the walk from there stops with no output. -/
theorem claim1_witness :
    fetchB "100" = some (mkDraw "2026-01-10" "100" (some "99")) ∧
    (idsOf storeB).contains (mkDraw "2026-01-10" "100" (some "99")).id = true ∧
    crawlLoop fetchB (idsOf storeB) 9 "100" = ([], 1) :=
  ⟨by decide, by decide,
    claim1_walker_stops_on_known_id.1 fetchB (idsOf storeB) 8 "100"
      (mkDraw "2026-01-10" "100" (some "99")) (by decide) (by decide)⟩

/-- C2: a crawl session performs at most `max_records` fetches and
returns at most `max_records` records; against an unbroken backward
chain of 5 available draws with `max_records = 2` it returns exactly the
2 newest records. -/
theorem claim2_walker_bounded :
    (∀ (fetch : String → Option ParsedDraw) (existingIds : List String)
        (maxRecords : Nat),
        crawlFetches fetch maxRecords existingIds ≤ maxRecords ∧
        (crawl fetch maxRecords existingIds).length ≤ maxRecords) ∧
    crawl fetchC 2 [] = [mkRec "2026-01-05" "5", mkRec "2026-01-04" "4"] := by
  refine ⟨fun fetch ids m => ?_, by decide⟩
  have h := crawlLoop_le fetch ids m ""
  exact ⟨h.1, le_trans h.2 h.1⟩

/-- Counterexample to C3 as stated: an update that merges a new draw
falling on the same date as a stored draw writes a store that is not
strictly ascending by date (two consecutive lines share a date). -/
theorem claim3_counterexample :
    (update_data (some storeEq) fetchEq 1).2 =
      some [mkRec "2026-01-01" "1", mkRec "2026-01-01" "2"] ∧
    ¬ strictAscByDate [mkRec "2026-01-01" "1", mkRec "2026-01-01" "2"] := by
  constructor
  · decide
  · intro h
    have h' : List.Chain' (fun a b => dateLe a b ∧ a.date ≠ b.date)
        [mkRec "2026-01-01" "1", mkRec "2026-01-01" "2"] := h
    exact (List.chain'_cons.mp h').1.2 rfl

/-- C3 (amended): after any call to `update_data` that writes the store,
the persisted rows are ascending by date from first line to last
(non-strictly: consecutive lines may share a date). -/
theorem claim3_store_sorted_by_date (ef : Option (List DrawRec))
    (fetch : String → Option ParsedDraw) (pages : Nat) (rows : List DrawRec)
    (h : (update_data ef fetch pages).2 = some rows) :
    ascByDate rows := by
  rcases update_data_write ef fetch pages rows h with ⟨hrows, -⟩
  rw [hrows]
  exact ascByDate_sortByDate _

/-- Witness for C3 (amended): the same-date update writes, and the rows
it writes are (non-strictly) ascending by date. -/
theorem claim3_witness :
    (update_data (some storeEq) fetchEq 1).2 =
      some [mkRec "2026-01-01" "1", mkRec "2026-01-01" "2"] ∧
    ascByDate [mkRec "2026-01-01" "1", mkRec "2026-01-01" "2"] :=
  ⟨by decide,
    claim3_store_sorted_by_date (some storeEq) fetchEq 1
      [mkRec "2026-01-01" "1", mkRec "2026-01-01" "2"] (by decide)⟩

/-- C8: `update_data` returns the count of newly merged records — the
store grows by exactly the returned count — and, because it invokes the
pagination walker with bound `pages × 10`, that count never exceeds
`pages × 10` (nor the length of the walker's own output). -/
theorem claim8_update_count (ef : Option (List DrawRec))
    (fetch : String → Option ParsedDraw) (pages : Nat) :
    ((storeAfter ef fetch pages).getD []).length =
      ((ef.getD []).length + (update_data ef fetch pages).1) ∧
    (update_data ef fetch pages).1 ≤
      (crawl fetch (pages * 10) (idsOf (ef.getD []))).length ∧
    (update_data ef fetch pages).1 ≤ pages * 10 := by
  have hcb := crawlLoop_le fetch (idsOf (ef.getD [])) (pages * 10) ""
  have hclen : (crawl fetch (pages * 10) (idsOf (ef.getD []))).length ≤ pages * 10 :=
    le_trans hcb.2 hcb.1
  rcases hw : (update_data ef fetch pages).2 with _ | rows
  · have h0 : (update_data ef fetch pages).1 = 0 := by
      rw [update_data_eq] at hw ⊢
      by_cases h1 : (crawl fetch (pages * 10) (idsOf (ef.getD []))).isEmpty
      · simp [h1]
      · by_cases h2 : (newRecordsOf ef fetch pages).isEmpty
        · simp [h1, h2]
        · simp [h1, h2] at hw
    have hs : storeAfter ef fetch pages = ef := by
      rw [storeAfter, hw]
    rw [hs, h0]
    exact ⟨rfl, Nat.zero_le _, Nat.zero_le _⟩
  · rcases update_data_write ef fetch pages rows hw with ⟨hrows, hcount⟩
    have hs : storeAfter ef fetch pages = some rows := by
      rw [storeAfter, hw]
    have hle : (newRecordsOf ef fetch pages).length ≤
        (crawl fetch (pages * 10) (idsOf (ef.getD []))).length :=
      List.length_filter_le _ _
    refine ⟨?_, ?_, ?_⟩
    · rw [hs, hcount]
      simp [hrows, sortByDate_length]
    · rw [hcount]; exact hle
    · rw [hcount]; exact le_trans hle hclen

/-- C10: when the crawl yields no records, or every crawled record's id
is already known, `update_data` returns 0 and performs no write at all:
the store file is untouched. -/
theorem claim10_no_write_on_no_new (ef : Option (List DrawRec))
    (fetch : String → Option ParsedDraw) (pages : Nat)
    (h : crawl fetch (pages * 10) (idsOf (ef.getD [])) = [] ∨
         ∀ r ∈ crawl fetch (pages * 10) (idsOf (ef.getD [])),
           (idsOf (ef.getD [])).contains r.id = true) :
    update_data ef fetch pages = (0, none) ∧ storeAfter ef fetch pages = ef := by
  have hmain : update_data ef fetch pages = (0, none) := by
    rw [update_data_eq]
    rcases h with h | h
    · simp [h]
    · by_cases h1 : (crawl fetch (pages * 10) (idsOf (ef.getD []))).isEmpty
      · simp [h1]
      · have h2 : (newRecordsOf ef fetch pages).isEmpty = true := by
          rw [newRecordsOf, List.isEmpty_iff, List.filter_eq_nil_iff]
          intro r hr
          have hm : r.id ∈ idsOf (ef.getD []) := by simpa using h r hr
          simp [hm]
        simp [h1, h2]
  exact ⟨hmain, by rw [storeAfter, hmain]⟩

/-- C4: `update_data` is idempotent against an unchanged remote: a
second run returns 0 new records and performs no write, so the store
after the second run is, line for line and field for field, the store
after the first run. -/
theorem claim4_update_idempotent (ef : Option (List DrawRec))
    (fetch : String → Option ParsedDraw) (pages : Nat) :
    update_data (storeAfter ef fetch pages) fetch pages = (0, none) ∧
    storeAfter (storeAfter ef fetch pages) fetch pages =
      storeAfter ef fetch pages := by
  suffices hmain : update_data (storeAfter ef fetch pages) fetch pages = (0, none) by
    exact ⟨hmain, by rw [storeAfter, hmain]⟩
  rcases hm : pages * 10 with _ | k
  · rw [update_data_eq, hm]
    simp [crawl, crawlLoop]
  · rw [update_data_eq, hm]
    cases hf : fetch "" with
    | none => simp [crawl, crawlLoop, hf]
    | some pd =>
      have hmem : pd.id ∈ idsOf ((storeAfter ef fetch pages).getD []) := by
        by_cases hc0 : pd.id ∈ idsOf (ef.getD [])
        · rcases hw : (update_data ef fetch pages).2 with _ | rows
          · rw [storeAfter, hw]; exact hc0
          · rcases update_data_write ef fetch pages rows hw with ⟨hrows, -⟩
            rw [storeAfter, hw]
            show pd.id ∈ idsOf rows
            rw [hrows]
            exact idsOf_sort_append_left hc0
        · have hc0' : (idsOf (ef.getD [])).contains pd.id = false := by
            cases hb : (idsOf (ef.getD [])).contains pd.id
            · rfl
            · exact absurd (by simpa using hb) hc0
          obtain ⟨rest, kk, hcl⟩ :=
            crawlLoop_head_new fetch (idsOf (ef.getD [])) k "" pd hf hc0'
          have hnd : crawl fetch (pages * 10) (idsOf (ef.getD [])) =
              pd.toRec :: rest := by
            rw [crawl, hm, hcl]
          have hmemf : pd.toRec ∈ newRecordsOf ef fetch pages := by
            rw [newRecordsOf, hnd]
            refine List.mem_filter.mpr ⟨List.mem_cons_self _ _, ?_⟩
            simp only [ParsedDraw.toRec]
            simpa using hc0
          have hne2 : (newRecordsOf ef fetch pages).isEmpty = false := by
            cases hE : newRecordsOf ef fetch pages with
            | nil => rw [hE] at hmemf; cases hmemf
            | cons a l => rfl
          have hndE : (crawl fetch (pages * 10) (idsOf (ef.getD []))).isEmpty
              = false := by
            rw [hnd]; rfl
          have hw : (update_data ef fetch pages).2 =
              some (sortByDate (ef.getD [] ++ newRecordsOf ef fetch pages)) := by
            rw [update_data_eq]
            simp [hndE, hne2]
          rw [storeAfter, hw]
          show pd.id ∈ idsOf (sortByDate (ef.getD [] ++ newRecordsOf ef fetch pages))
          exact idsOf_sort_append_right (List.mem_map.mpr ⟨pd.toRec, hmemf, rfl⟩)
      have hcont : (idsOf ((storeAfter ef fetch pages).getD [])).contains pd.id
          = true := by
        simpa using hmem
      have hstop := crawlLoop_stop_known fetch
        (idsOf ((storeAfter ef fetch pages).getD [])) k "" pd hf hcont
      simp [crawl, hstop]

/-- C5: for a numeric-draw fragment whose header yields a draw id and a
valid date and whose result container is present: when the container
holds at least the configured pick-count of whole-number tokens, the
parser returns a record whose result is exactly the first pick-count
tokens as integers (so its length is exactly the pick-count); with fewer
tokens it returns no record. -/
theorem claim5_power_pick_count (cfg : LotteryConfig) (frag : HtmlFrag)
    (now : String) (h5 : String) (hh : frag.h5text = some h5)
    (drawId : String) (hid : findHashId h5.data = some drawId)
    (dateStr : String) (hdate : findDate h5.data = some dateStr)
    (dateIso : String) (hiso : normalizeDate dateStr = some dateIso)
    (spans : List String) (hdiv : selectResultDiv frag = some spans) :
    (cfg.numbersToPick ≤ (powerNumbers spans).length →
      parsePower cfg frag now = some
        { date := dateIso, id := drawId,
          result := .nums ((powerNumbers spans).take cfg.numbersToPick),
          processTime := now, prevDrawId := findPrevId frag.prevHref } ∧
      ((powerNumbers spans).take cfg.numbersToPick).length =
        cfg.numbersToPick) ∧
    ((powerNumbers spans).length < cfg.numbersToPick →
      parsePower cfg frag now = none) := by
  constructor
  · intro hge
    have hnlt : ¬ (powerNumbers spans).length < cfg.numbersToPick :=
      not_lt.mpr hge
    constructor
    · simp [parsePower, parsePowerE, hh, hid, hdate, hiso, hdiv, hnlt]
    · rw [List.length_take]
      exact Nat.min_eq_left hge
  · intro hlt
    simp [parsePower, parsePowerE, hh, hid, hdate, hiso, hdiv, hlt]

/-- Witness for C5: the valid power fragment with seven digit spans
parses to the first six tokens for the 6-pick product. -/
theorem claim5_witness :
    fragPower.h5text = some "Kỳ quay thưởng #01458 ngày 14/01/2026" ∧
    findHashId ("Kỳ quay thưởng #01458 ngày 14/01/2026").data = some "01458" ∧
    findDate ("Kỳ quay thưởng #01458 ngày 14/01/2026").data = some "14/01/2026" ∧
    normalizeDate "14/01/2026" = some "2026-01-14" ∧
    selectResultDiv fragPower = some ["05", "12", "23", "34", "45", "55", "10"] ∧
    power645Config.numbersToPick ≤
      (powerNumbers ["05", "12", "23", "34", "45", "55", "10"]).length ∧
    parsePower power645Config fragPower "T" = some
      { date := "2026-01-14", id := "01458",
        result := .nums ((powerNumbers
          ["05", "12", "23", "34", "45", "55", "10"]).take
            power645Config.numbersToPick),
        processTime := "T", prevDrawId := findPrevId fragPower.prevHref } :=
  ⟨rfl, by decide, by decide, by decide, rfl, by decide,
    ((claim5_power_pick_count power645Config fragPower "T"
        "Kỳ quay thưởng #01458 ngày 14/01/2026" rfl
        "01458" (by decide) "14/01/2026" (by decide)
        "2026-01-14" (by decide)
        ["05", "12", "23", "34", "45", "55", "10"] rfl).1 (by decide)).1⟩

/-- Counterexample to C6 as stated: a digit-triplet fragment with a
valid header and zero complete single-digit triplets — each group has
three spans whose texts are digit strings but not single digits — still
yields a record, and its result strings are not 3-character strings. -/
theorem claim6_counterexample :
    (fragTripletWide.max3dDivs.filter specCompleteTriplet).length = 0 ∧
    parseMax3d fragTripletWide "T" = some
      { date := "2026-01-05", id := "00123",
        result := .triplets ["1234", "5678"], processTime := "T",
        prevDrawId := none } ∧
    ("1234" : String).length = 4 :=
  ⟨by decide, by decide, by decide⟩

/-- A group accepted by the Max 3D extraction because it is a complete
single-digit triplet contributes the concatenation of its three texts,
which is then a 3-character string. -/
theorem max3dNumbers_complete_triplet (spans : List String)
    (h : specCompleteTriplet spans = true) :
    max3dNumbers [spans] = [String.join (spans.map strip)] ∧
    (String.join (spans.map strip)).length = 3 := by
  rcases h3 : spans with _ | ⟨a, _ | ⟨b, _ | ⟨c, _ | _⟩⟩⟩ <;>
    rw [h3] at h <;> simp [specCompleteTriplet] at h
  rcases h with ⟨⟨ha1, ha2⟩, ⟨hb1, hb2⟩, ⟨hc1, hc2⟩⟩
  constructor
  · simp [max3dNumbers, specCompleteTriplet, ha2, hb2, hc2]
  · simp [String.join, String.length_append, ha1, hb1, hc1]

/-- C6 (amended): for a digit-triplet fragment with a valid header, the
parser yields a record if and only if at least 2 groups of exactly three
digit-string sub-elements are present; the record's result holds, per
accepted group, the concatenation of the group's three stripped texts
(a 3-character string whenever the group is a complete single-digit
triplet); with fewer than 2 accepted groups it returns no record. -/
theorem claim6_max3d_groups (frag : HtmlFrag) (now : String)
    (h5 : String) (hh : frag.h5text = some h5)
    (drawId : String) (hid : findHashId h5.data = some drawId)
    (dateStr : String) (hdate : findDate h5.data = some dateStr)
    (dateIso : String) (hiso : normalizeDate dateStr = some dateIso) :
    (2 ≤ (max3dNumbers frag.max3dDivs).length →
      parseMax3d frag now = some
        { date := dateIso, id := drawId,
          result := .triplets (max3dNumbers frag.max3dDivs),
          processTime := now, prevDrawId := findPrevId frag.prevHref }) ∧
    ((max3dNumbers frag.max3dDivs).length < 2 →
      parseMax3d frag now = none) := by
  constructor
  · intro hge
    have hnlt : ¬ (max3dNumbers frag.max3dDivs).length < 2 := not_lt.mpr hge
    simp [parseMax3d, parseMax3dE, hh, hid, hdate, hiso, hnlt]
  · intro hlt
    simp [parseMax3d, parseMax3dE, hh, hid, hdate, hiso, hlt]

/-- Witness for C6 (amended): the fragment with two complete
single-digit triplets parses to the two 3-character strings. -/
theorem claim6_witness :
    fragTriplet.h5text = some "Kỳ quay thưởng #00123 ngày 05/01/2026" ∧
    findHashId ("Kỳ quay thưởng #00123 ngày 05/01/2026").data = some "00123" ∧
    findDate ("Kỳ quay thưởng #00123 ngày 05/01/2026").data = some "05/01/2026" ∧
    normalizeDate "05/01/2026" = some "2026-01-05" ∧
    2 ≤ (max3dNumbers fragTriplet.max3dDivs).length ∧
    parseMax3d fragTriplet "T" = some
      { date := "2026-01-05", id := "00123",
        result := .triplets (max3dNumbers fragTriplet.max3dDivs),
        processTime := "T", prevDrawId := findPrevId fragTriplet.prevHref } :=
  ⟨rfl, by decide, by decide, by decide, by decide,
    (claim6_max3d_groups fragTriplet "T"
        "Kỳ quay thưởng #00123 ngày 05/01/2026" rfl
        "00123" (by decide) "05/01/2026" (by decide)
        "2026-01-05" (by decide)).1 (by decide)⟩

/-- C7: neither parser ever lets an internal failure escape: for every
fragment, every error of the `Except`-modelled parser body is turned
into "no record" by the public parser, and every success is returned as
the record — the caller sees an `Option`, never an exception. -/
theorem claim7_parse_never_raises (cfg : LotteryConfig) (frag : HtmlFrag)
    (now : String) :
    (∀ e, parseResponseE cfg frag now = .error e →
      parseResponse cfg frag now = none) ∧
    (∀ r, parseResponseE cfg frag now = .ok r →
      parseResponse cfg frag now = some r) := by
  constructor
  · intro e he
    rw [parseResponseE] at he
    by_cases hp : cfg.productType = "max3d"
    · rw [if_pos hp] at he
      simp [parseResponse, hp, parseMax3d, he]
    · rw [if_neg hp] at he
      simp [parseResponse, hp, parsePower, he]
  · intro r hr
    rw [parseResponseE] at hr
    by_cases hp : cfg.productType = "max3d"
    · rw [if_pos hp] at hr
      simp [parseResponse, hp, parseMax3d, hr]
    · rw [if_neg hp] at hr
      simp [parseResponse, hp, parsePower, hr]

/-- Witness for C7: the empty fragment fails with a missing header, and
the public parser reports "no record". -/
theorem claim7_witness :
    parseResponseE power645Config fragEmpty "T" = .error .noH5 ∧
    parseResponse power645Config fragEmpty "T" = none :=
  ⟨by decide,
    (claim7_parse_never_raises power645Config fragEmpty "T").1 .noH5 (by decide)⟩

/-- Counterexample to C9 as stated: starting from a store with pairwise
distinct ids (the empty store), a remote whose previous-draw link leads
to a second, not-yet-stored record carrying the same id 7 makes
`update_data` write a store with duplicate ids — neither the walker's
check nor the second filter dedups within the crawled batch. -/
theorem claim9_counterexample :
    (idsOf ([] : List DrawRec)).Nodup ∧
    (update_data (some []) fetchDup 1).2 =
      some [mkRec "2026-01-05" "7", mkRec "2026-01-06" "7"] ∧
    ¬ (idsOf [mkRec "2026-01-05" "7", mkRec "2026-01-06" "7"]).Nodup :=
  ⟨by decide, by decide, by decide⟩

/-- C9 (amended): id uniqueness is preserved by `update_data` whenever
the crawled batch itself carries pairwise distinct ids: the second,
independent filter guarantees no new record shares an id with the
existing store, but it does not dedup within the batch. -/
theorem claim9_unique_ids (ef : Option (List DrawRec))
    (fetch : String → Option ParsedDraw) (pages : Nat)
    (hex : (idsOf (ef.getD [])).Nodup)
    (hnew : (idsOf (crawl fetch (pages * 10) (idsOf (ef.getD [])))).Nodup) :
    (idsOf ((storeAfter ef fetch pages).getD [])).Nodup := by
  rcases hw : (update_data ef fetch pages).2 with _ | rows
  · rw [storeAfter, hw]; exact hex
  · rcases update_data_write ef fetch pages rows hw with ⟨hrows, -⟩
    rw [storeAfter, hw]
    show (idsOf rows).Nodup
    rw [hrows]
    have hperm : List.Perm
        (idsOf (sortByDate (ef.getD [] ++ newRecordsOf ef fetch pages)))
        (idsOf (ef.getD [] ++ newRecordsOf ef fetch pages)) :=
      (sortByDate_perm _).map _
    rw [hperm.nodup_iff]
    rw [idsOf, List.map_append, List.nodup_append]
    refine ⟨hex, ?_, ?_⟩
    · have hsub : List.Sublist (newRecordsOf ef fetch pages)
          (crawl fetch (pages * 10) (idsOf (ef.getD []))) :=
        List.filter_sublist _
      exact List.Nodup.sublist (hsub.map _) hnew
    · intro i hi1 hi2
      rcases List.mem_map.mp hi2 with ⟨r, hr, hri⟩
      have hrp := (List.mem_filter.mp hr).2
      subst hri
      have hmem : r.id ∈ idsOf (ef.getD []) := hi1
      simp [hmem] at hrp

/-- Witness for C9 (amended): in scenario B the existing ids and the
crawled batch's ids are pairwise distinct, so the merged store's ids
are pairwise distinct. -/
theorem claim9_witness :
    (idsOf ((some storeB).getD [])).Nodup ∧
    (idsOf (crawl fetchB (1 * 10) (idsOf ((some storeB).getD [])))).Nodup ∧
    (idsOf ((storeAfter (some storeB) fetchB 1).getD [])).Nodup :=
  ⟨by decide, by decide,
    claim9_unique_ids (some storeB) fetchB 1 (by decide) (by decide)⟩

/-- Witness for C10: against a transport that never answers, an update
over the scenario-B store returns 0 and leaves the file untouched. -/
theorem claim10_witness :
    (crawl (fun _ => none) (1 * 10) (idsOf ((some storeB).getD [])) = [] ∨
      ∀ r ∈ crawl (fun _ => none) (1 * 10) (idsOf ((some storeB).getD [])),
        (idsOf ((some storeB).getD [])).contains r.id = true) ∧
    update_data (some storeB) (fun _ => none) 1 = (0, none) ∧
    storeAfter (some storeB) (fun _ => none) 1 = some storeB :=
  ⟨Or.inl (by decide),
    claim10_no_write_on_no_new (some storeB) (fun _ => none) 1
      (Or.inl (by decide))⟩

end Vietlott
